import Mathlib

/-! Shallow embedding of the streamhub-sdk streaming update engine.

The embedded source files:
* `src/unnamed/part_000` — `streamhub-sdk/streams/collection-updater`
  (the `CollectionUpdater` Readable stream: bootstrap-then-poll
  orchestration, cursor tracking, raw-state-to-entity translation).
* `src/src/content/views/content-list-view.js` — `ContentListView`
  (capacity-bounded visible list, overflow stash hand-off, release
  cadence counter).

External collaborators (the bootstrap/stream network clients, the
`StateToContent` translator, the `stream` Readable base, and the
`more`/`Pond` side streams) are modelled at their call/response
contracts; definitions whose source is not in the repository snapshot
carry a `Modelled from the spec:` note in their doc comment.
-/

/-- A raw per-identity state record, as returned by a streaming or
bootstrap response. Opaque to the updater; meaning is owned by the
translator. -/
structure RawState where
  payload : String
deriving DecidableEq, Repr

/-- A content entity as produced by the translator boundary. The
updater and list view treat it opaquely apart from its id. -/
structure Content where
  id : String
  body : String
deriving DecidableEq, Repr

/-! Section: CollectionUpdater (src/unnamed/part_000) -/

/-- The result of `_getCollectionOptions` (part_000 lines 188-196):
which Collection the requests are about. -/
structure CollectionOptions where
  environment : Option String
  network : String
  siteId : String
  articleId : String
  collectionId : Option String
deriving DecidableEq, Repr

/-- Options of one stream request: `_stream` (part_000 lines 87-89)
takes `_getCollectionOptions()` and assigns `commentId = latestEvent`. -/
structure StreamOptions where
  opts : CollectionOptions
  commentId : Option String
deriving DecidableEq, Repr

/-- The instance fields of a `CollectionUpdater` (part_000 lines
29-44): identity options, the two bootstrap flags, and the cursor
state learned from responses. JS `undefined` is `none`. -/
structure CollectionUpdater where
  network : String
  siteId : String
  articleId : String
  environment : Option String
  isInitingFromBootstrap : Bool
  finishedInitFromBootstrap : Bool
  latestEvent : Option String
  collectionId : Option String
deriving DecidableEq, Repr

/-- The constructor (part_000 lines 29-44): flags start false, cursor
and collection id are not yet set. -/
def CollectionUpdater.init (network siteId articleId : String)
    (environment : Option String) : CollectionUpdater :=
  { network := network
    siteId := siteId
    articleId := articleId
    environment := environment
    isInitingFromBootstrap := false
    finishedInitFromBootstrap := false
    latestEvent := none
    collectionId := none }

/-- The `_getCollectionOptions` (part_000 lines 188-196). -/
def CollectionUpdater.getCollectionOptions (u : CollectionUpdater) :
    CollectionOptions :=
  { environment := u.environment
    network := u.network
    siteId := u.siteId
    articleId := u.articleId
    collectionId := u.collectionId }

/-- The stream request options built in `_stream` (part_000 lines
87-89): the collection options with `commentId` set to the current
`_latestEvent` cursor. -/
def CollectionUpdater.streamRequestOpts (u : CollectionUpdater) :
    StreamOptions :=
  { opts := u.getCollectionOptions, commentId := u.latestEvent }

/-- The `_contentsFromStreamData` (part_000 lines 123-142): feed every raw
state record of the response to a fresh translator and collect the
contents it emits, in record order. The translator is an external
boundary (per record it synchronously produces zero or one entity), so
it enters as the function argument `translate`. -/
def CollectionUpdater.contentsFromStreamData
    (translate : RawState → Option Content)
    (states : List (String × RawState)) : List Content :=
  states.filterMap fun s => translate s.2

/-- The `collectionSettings` of a bootstrap response (part_000 lines
65-67, spec interface `{collectionSettings:{event, collectionId}}`). -/
structure CollectionSettings where
  event : String
  collectionId : String
deriving DecidableEq, Repr

/-- Body of a bootstrap response; `collectionSettings` may be absent
(`none` models a JS object without the field). -/
structure BootstrapData where
  collectionSettings : Option CollectionSettings
deriving DecidableEq, Repr

/-- A stream service response as seen by `_stream`'s callback
(part_000 lines 90-113): an error, a long-poll timeout signal, or data
carrying keyed raw state records and the reported maximum event id. -/
inductive StreamResponse where
  | fail (e : String)
  | timeout
  | data (states : List (String × RawState)) (maxEventId : String)
deriving DecidableEq, Repr

/-- Which asynchronous continuation is outstanding for the instance:
nothing, the bootstrap request's callback, a stream request's
callback, or the `nextTick(_stream)` continuation scheduled after a
long-poll timeout (part_000 lines 98-101). The model keeps at most one
outstanding continuation; the schedules used in the theorems respect
that. -/
inductive Pending where
  | idle
  | bootstrap
  | stream
  | tickStream
deriving DecidableEq, Repr

/-- An updater instance together with its outstanding continuation. -/
structure UpdaterSys where
  updater : CollectionUpdater
  pending : Pending
deriving DecidableEq, Repr

/-- A fresh instance: constructor fields, nothing outstanding. -/
def UpdaterSys.init (network siteId articleId : String)
    (environment : Option String) : UpdaterSys :=
  { updater := CollectionUpdater.init network siteId articleId environment
    pending := Pending.idle }

/-- Externally observable effects of one step: requests issued to the
two clients, `emit('error', e)`, a single `push(...contents)` call
onto the read buffer, and a thrown JS `TypeError` (dereferencing an
absent field). -/
inductive Output where
  | bootstrapRequest (opts : CollectionOptions)
  | streamRequest (opts : StreamOptions)
  | errorEmitted (e : String)
  | push (contents : List Content)
  | jsError (msg : String)
deriving DecidableEq, Repr

/-- Inputs driving the instance: an invocation of the pull entry point
(`read()` on the Readable base invoking `_read`), the bootstrap
client's callback, the stream client's callback, and the event-loop
tick firing the deferred `_stream` continuation. -/
inductive Input where
  | read
  | bootstrapResponse (err : Option String) (data : Option BootstrapData)
  | streamResponse (r : StreamResponse)
  | tick
deriving DecidableEq, Repr

/-- The `_read` (part_000 lines 54-76) together with the request-issuing
front half of `_getBootstrapInit` (lines 154-168): if init from
bootstrap has not finished, request bootstrap init — unless a
bootstrap request is already outstanding, in which case the call only
logs and returns (lines 158-163). Otherwise `_stream()` issues a
stream request from the current cursor. -/
def UpdaterSys.readStep (s : UpdaterSys) : UpdaterSys × List Output :=
  if s.updater.finishedInitFromBootstrap then
    ({ s with pending := Pending.stream },
     [Output.streamRequest s.updater.streamRequestOpts])
  else if s.updater.isInitingFromBootstrap then
    (s, [])
  else
    ({ s with
        updater := { s.updater with isInitingFromBootstrap := true }
        pending := Pending.bootstrap },
     [Output.bootstrapRequest s.updater.getCollectionOptions])

/-- The bootstrap client callback (part_000 lines 169-179) followed by
the errback passed from `_read` (lines 64-73). On error the code emits
the error but does not return: it still clears the flags and invokes
the errback, which unconditionally dereferences
`initResponse.collectionSettings` (a TypeError when the response body
or its `collectionSettings` is absent) and otherwise stores the cursor
and collection id and calls `_stream()`. -/
def UpdaterSys.bootstrapResponseStep (s : UpdaterSys)
    (err : Option String) (data : Option BootstrapData) :
    UpdaterSys × List Output :=
  if s.pending ≠ Pending.bootstrap then (s, []) else
  let errOut : List Output :=
    match err with
    | some e => [Output.errorEmitted e]
    | none => []
  let u1 : CollectionUpdater :=
    { s.updater with
        isInitingFromBootstrap := false
        finishedInitFromBootstrap := true }
  match data with
  | none =>
      ({ updater := u1, pending := Pending.idle },
       errOut ++ [Output.jsError "read collectionSettings of undefined"])
  | some d =>
      match d.collectionSettings with
      | none =>
          ({ updater := u1, pending := Pending.idle },
           errOut ++ [Output.jsError "read event of undefined"])
      | some cs =>
          let u2 : CollectionUpdater :=
            { u1 with
                latestEvent := some cs.event
                collectionId := some cs.collectionId }
          ({ updater := u2, pending := Pending.stream },
           errOut ++ [Output.streamRequest u2.streamRequestOpts])

/-- The stream client callback (part_000 lines 90-113). Error: emit
and return. Timeout: schedule one more `_stream` on the next tick.
Data: translate the records, assign the cursor to the response's
`maxEventId` (a single unconditional assignment), then either push the
whole batch in one call (nonempty) or immediately issue the next
stream request (empty). -/
def UpdaterSys.streamResponseStep (translate : RawState → Option Content)
    (s : UpdaterSys) (r : StreamResponse) : UpdaterSys × List Output :=
  if s.pending ≠ Pending.stream then (s, []) else
  match r with
  | StreamResponse.fail e =>
      ({ s with pending := Pending.idle }, [Output.errorEmitted e])
  | StreamResponse.timeout =>
      ({ s with pending := Pending.tickStream }, [])
  | StreamResponse.data states maxEventId =>
      let contents := CollectionUpdater.contentsFromStreamData translate states
      let u1 : CollectionUpdater := { s.updater with latestEvent := some maxEventId }
      if contents.length ≠ 0 then
        ({ updater := u1, pending := Pending.idle }, [Output.push contents])
      else
        ({ updater := u1, pending := Pending.stream },
         [Output.streamRequest u1.streamRequestOpts])

/-- The deferred continuation scheduled by the timeout branch firing
on the next event-loop tick (part_000 lines 99-101): it runs
`_stream()`, issuing one stream request. -/
def UpdaterSys.tickStep (s : UpdaterSys) : UpdaterSys × List Output :=
  if s.pending = Pending.tickStream then
    ({ s with pending := Pending.stream },
     [Output.streamRequest s.updater.streamRequestOpts])
  else (s, [])

/-- One step of the updater system on one input. -/
def UpdaterSys.step (translate : RawState → Option Content)
    (s : UpdaterSys) : Input → UpdaterSys × List Output
  | Input.read => s.readStep
  | Input.bootstrapResponse err data => s.bootstrapResponseStep err data
  | Input.streamResponse r => s.streamResponseStep translate r
  | Input.tick => s.tickStep

/-- Run the updater over a list of inputs, concatenating the outputs. -/
def UpdaterSys.run (translate : RawState → Option Content) :
    UpdaterSys → List Input → UpdaterSys × List Output
  | s, [] => (s, [])
  | s, i :: is =>
      let (s1, o1) := s.step translate i
      let (s2, o2) := UpdaterSys.run translate s1 is
      (s2, o1 ++ o2)

/-- The stream requests among a list of outputs. -/
def streamRequestsIn (outs : List Output) : List StreamOptions :=
  outs.filterMap fun o =>
    match o with
    | Output.streamRequest so => some so
    | _ => none

/-- Drive the poll loop over successful (non-timeout) responses: each
response is consumed by the outstanding stream request's callback;
when the callback pushed a batch the consumer pulls again (`read`),
otherwise the callback already issued the next request itself. Collect
the stream requests issued after each response. -/
def UpdaterSys.drivePoll (translate : RawState → Option Content) :
    UpdaterSys → List (List (String × RawState) × String) →
    UpdaterSys × List StreamOptions
  | s, [] => (s, [])
  | s, (states, maxId) :: rest =>
      let (s1, o1) := s.streamResponseStep translate
        (StreamResponse.data states maxId)
      let (s2, o2) :=
        if s1.pending = Pending.stream then (s1, []) else s1.readStep
      let (s3, os) := UpdaterSys.drivePoll translate s2 rest
      (s3, streamRequestsIn (o1 ++ o2) ++ os)

/-! Section: Overflow Stash and ContentListView
(src/src/content/views/content-list-view.js) -/

/-- Modelled from the spec: the Overflow Stash is the `more` stream
('streamhub-sdk/views/streams/more'), whose source is not in the
snapshot; only its call contract (§4.4) is modelled: an ordered stack
of displaced entities plus a release-goal counter. -/
structure Stash where
  items : List Content
  goal : Nat
deriving DecidableEq, Repr

/-- Modelled from the spec: `stack(entity)` pushes an entity onto the
stash; stash ordering is last-in-first-out (§4.4). -/
def Stash.stack (st : Stash) (c : Content) : Stash :=
  { st with items := c :: st.items }

/-- Modelled from the spec: `setGoal(n)` sets the number of entities
eligible for automatic release during the current window; `setGoal(0)`
immediately suppresses any pending release (§4.4). -/
def Stash.setGoal (st : Stash) (n : Nat) : Stash :=
  { st with goal := n }

/-- Modelled from the spec: a release event emits the most recently
stacked entity when the goal is positive, consuming one unit of goal;
with goal `0` nothing is released; with an empty stash the release is
a no-op that does not consume goal (§4.4). -/
def Stash.release (st : Stash) : Stash × Option Content :=
  if st.goal = 0 then (st, none)
  else
    match st.items with
    | [] => (st, none)
    | c :: rest => ({ items := rest, goal := st.goal - 1 }, some c)

/-- Iterate `k` release events, collecting the released entities. -/
def Stash.releaseN : Stash → Nat → Stash × List Content
  | st, 0 => (st, [])
  | st, k + 1 =>
      let (st1, c) := st.release
      let (st2, cs) := Stash.releaseN st1 k
      (st2, c.toList ++ cs)

/-- Modelled from the spec: the featured-content side stream created
by `_createFeatureStream` (content-list-view.js lines 92-98), a `Pond`
whose source is not in the snapshot. The view reads and mutates its
release-goal and the cadence fields `_count`/`_interval` directly
(lines 169-173); only those fields are modelled. The counter can hold
`-1` after a reset, so it is an integer. -/
structure FeatureStream where
  count : Int
  interval : Int
  goal : Nat
deriving DecidableEq, Repr

/-- A content view wrapping one content model. `createContentView`
(content-list-view.js lines 278-286) delegates to the view factory and
renders — presentation glue; the model keeps only the wrapped
content. -/
structure ContentView where
  content : Content
deriving DecidableEq, Repr

/-- The `ContentListView` state (content-list-view.js lines 27-49):
the ordered visible views (`this.views`, owned by the `ListView`
base), the `_bound` flag, `_maxVisibleItems`, the overflow stash
(`this._stash`, defaulting to `this.more`) and the featured-content
stream (`this.feature`). DOM elements and the modal are presentation
glue and are not modelled. -/
structure ContentListView where
  views : List ContentView
  bound : Bool
  maxVisibleItems : Nat
  more : Stash
  feature : FeatureStream
deriving DecidableEq, Repr

/-- The `_hasVisibleVacancy` (content-list-view.js lines 226-231): false
exactly when the view count strictly exceeds `_maxVisibleItems`. -/
def ContentListView.hasVisibleVacancy (v : ContentListView) : Bool :=
  if v.views.length > v.maxVisibleItems then false else true

/-- The `getContentView` (content-list-view.js lines 262-270): the first
existing view whose content is the new content itself or shares its
(nonempty) id. JS truthiness of `newContent.id` is nonemptiness. -/
def ContentListView.getContentView (v : ContentListView)
    (newContent : Content) : Option ContentView :=
  v.views.find? fun cv =>
    cv.content == newContent ||
      (newContent.id != "" && cv.content.id == newContent.id)

/-- The `saveForLater` (content-list-view.js lines 237-239): stack the
displaced content onto the stash. -/
def ContentListView.saveForLater (v : ContentListView) (c : Content) :
    ContentListView :=
  { v with more := v.more.stack c }

/-- The `bounded` (content-list-view.js lines 129-131). -/
def ContentListView.bounded (v : ContentListView) (b : Bool) :
    ContentListView :=
  { v with bound := b }

/-- The displacement block of `add` (content-list-view.js lines
154-165): when `_bound` holds and there is no visible vacancy, the
stash goal is set to 0 (`this.more.setGoal(0)`), the last view's
content is stacked (`saveForLater`), and that view is removed from the
visible list. -/
def ContentListView.displaceIfFull (v : ContentListView) : ContentListView :=
  if v.bound && ! v.hasVisibleVacancy then
    match v.views.getLast? with
    | some viewToRemove =>
        { v with
            more := (v.more.setGoal 0).stack viewToRemove.content
            views := v.views.dropLast }
    | none => v
  else v

/-- The `ListView.prototype.add` call of `add` (content-list-view.js
line 167): insert the new view into the visible list. The base class
is not in the snapshot; modelled from the spec as insertion at the
requested position (clamped), which adds exactly one view. -/
def ContentListView.insertView (v : ContentListView) (cv : ContentView)
    (index : Option Nat) : ContentListView :=
  { v with
      views := v.views.insertIdx
        (min (index.getD v.views.length) v.views.length) cv }

/-- The cadence block of `add` (content-list-view.js lines 169-173):
increment the feature stream's `_count`; when it reaches `_interval`,
reset it to `-1` and set the feature stream's goal to one. -/
def ContentListView.bumpCadence (v : ContentListView) : ContentListView :=
  if v.feature.count + 1 = v.feature.interval then
    { v with feature := { v.feature with count := -1, goal := 1 } }
  else
    { v with feature := { v.feature with count := v.feature.count + 1 } }

/-- The `ContentListView.add` (content-list-view.js lines 143-175) for a
content-model argument. If an existing view matches, the base class
re-adds that view — an in-place update that, per the data model
(entities are never duplicated), leaves the modelled state unchanged
(`ListView` base is not in the snapshot; modelled from the spec).
Otherwise a view is created for the content, the displacement block
runs, the new view is inserted, and the cadence block runs — in the
source's order. -/
def ContentListView.add (v : ContentListView) (c : Content)
    (index : Option Nat) : ContentListView :=
  match v.getContentView c with
  | some _ => v
  | none =>
      ((v.displaceIfFull).insertView { content := c } index).bumpCadence

/-! Section: Concrete fixtures used by witnesses and counterexamples -/

/-- A translator that drops every record. -/
def translateNone : RawState → Option Content := fun _ => none

/-- A translator that converts every record into one entity. -/
def translateAll : RawState → Option Content :=
  fun r => some { id := r.payload, body := r.payload }

/-- An updater that has finished bootstrap and sits between stream
requests, cursor at `E0`, collection `C1`. -/
def sysStreaming : UpdaterSys :=
  { updater :=
      { network := "n1"
        siteId := "s1"
        articleId := "a1"
        environment := none
        isInitingFromBootstrap := false
        finishedInitFromBootstrap := true
        latestEvent := some "E0"
        collectionId := some "C1" }
    pending := Pending.stream }

/-! Section: Claims about the CollectionUpdater -/

/-- C2: after a bootstrap response
`{collectionSettings:{event:"E0", collectionId:"C1"}}`, the first
stream request is issued with options containing collectionId `"C1"`,
commentId `"E0"`, and the instance's identity fields (network, siteId,
articleId, environment). Stated over a run from a fresh instance: the
pull entry point issues the bootstrap request, and the successful
bootstrap response immediately issues the first stream request with
exactly those options. -/
theorem first_stream_request_uses_bootstrap_settings
    (n si a : String) (env : Option String) :
    (UpdaterSys.run translateNone (UpdaterSys.init n si a env)
      [Input.read,
       Input.bootstrapResponse none
         (some { collectionSettings :=
                   some { event := "E0", collectionId := "C1" } })]).2 =
    [Output.bootstrapRequest
       { environment := env, network := n, siteId := si, articleId := a,
         collectionId := none },
     Output.streamRequest
       { opts := { environment := env, network := n, siteId := si,
                   articleId := a, collectionId := some "C1" },
         commentId := some "E0" }] := rfl

/-- C3: a stream response `{timeout:true}` produces zero entities (the
step's outputs contain no push and no request at all), leaves the
cursor — indeed the whole updater record — unchanged, and schedules
the single follow-up stream request as a deferred continuation: only
the next event-loop tick issues exactly one stream request, from the
unchanged cursor. -/
theorem timeout_defers_exactly_one_request
    (translate : RawState → Option Content) (s : UpdaterSys)
    (hp : s.pending = Pending.stream) :
    s.streamResponseStep translate StreamResponse.timeout =
      ({ s with pending := Pending.tickStream }, []) ∧
    UpdaterSys.tickStep { s with pending := Pending.tickStream } =
      ({ s with pending := Pending.stream },
       [Output.streamRequest s.updater.streamRequestOpts]) := by
  constructor
  · simp [UpdaterSys.streamResponseStep, hp]
  · simp [UpdaterSys.tickStep]

/-- Witness for C3 at the concrete streaming fixture. -/
theorem timeout_defers_exactly_one_request_witness :
    sysStreaming.pending = Pending.stream ∧
    sysStreaming.streamResponseStep translateNone StreamResponse.timeout =
      ({ sysStreaming with pending := Pending.tickStream }, []) := by
  refine ⟨rfl, ?_⟩
  exact (timeout_defers_exactly_one_request translateNone sysStreaming rfl).1

/-- C4: while a bootstrap request is outstanding
(`_isInitingFromBootstrap` set, init not finished), a further
invocation of the pull entry point is a no-op: same state, no output,
in particular no second bootstrap request. -/
theorem reentrant_read_during_bootstrap_is_noop (s : UpdaterSys)
    (hi : s.updater.isInitingFromBootstrap = true)
    (hf : s.updater.finishedInitFromBootstrap = false) :
    s.readStep = (s, []) := by
  simp [UpdaterSys.readStep, hi, hf]

/-- Witness for C4: a fresh instance right after its first `read`. -/
theorem reentrant_read_during_bootstrap_is_noop_witness :
    ((UpdaterSys.run translateNone (UpdaterSys.init "n1" "s1" "a1" none)
        [Input.read]).1.readStep =
     ((UpdaterSys.run translateNone (UpdaterSys.init "n1" "s1" "a1" none)
        [Input.read]).1, [])) := by
  exact reentrant_read_during_bootstrap_is_noop _ rfl rfl

/-- C5 (code evaluated at the failing input): on a bootstrap failure
the code emits the Bootstrap error once but does not return — it marks
init finished and still invokes the `_read` callback, which
dereferences the absent response body (a TypeError), and a later pull
invocation then issues a stream request with no collection id and no
cursor. The claim's clean stop (no stream request, no partial or
garbled state) does not hold. -/
theorem bootstrap_error_garbles_state :
    UpdaterSys.run translateNone (UpdaterSys.init "n1" "s1" "a1" none)
      [Input.read, Input.bootstrapResponse (some "boom") none, Input.read] =
    ({ updater :=
         { network := "n1", siteId := "s1", articleId := "a1",
           environment := none,
           isInitingFromBootstrap := false,
           finishedInitFromBootstrap := true,
           latestEvent := none, collectionId := none }
       pending := Pending.stream },
     [Output.bootstrapRequest
        { environment := none, network := "n1", siteId := "s1",
          articleId := "a1", collectionId := none },
      Output.errorEmitted "boom",
      Output.jsError "read collectionSettings of undefined",
      Output.streamRequest
        { opts := { environment := none, network := "n1", siteId := "s1",
                    articleId := "a1", collectionId := none },
          commentId := none }]) := by decide

/-- C6 counterexample: after a stream request fails, the instance is
not terminal — a later invocation of the pull entry point issues a new
stream request (the final output below), contradicting the claim that
no further requests are issued until the instance is discarded. -/
theorem stream_error_not_terminal_cex :
    (UpdaterSys.run translateNone (UpdaterSys.init "n1" "s1" "a1" none)
      [Input.read,
       Input.bootstrapResponse none
         (some { collectionSettings :=
                   some { event := "E0", collectionId := "C1" } }),
       Input.streamResponse (StreamResponse.fail "boom"),
       Input.read]).2 =
    [Output.bootstrapRequest
       { environment := none, network := "n1", siteId := "s1",
         articleId := "a1", collectionId := none },
     Output.streamRequest
       { opts := { environment := none, network := "n1", siteId := "s1",
                   articleId := "a1", collectionId := some "C1" },
         commentId := some "E0" },
     Output.errorEmitted "boom",
     Output.streamRequest
       { opts := { environment := none, network := "n1", siteId := "s1",
                   articleId := "a1", collectionId := some "C1" },
         commentId := some "E0" }] := by decide

/-- C6 as amended: when a stream request fails, exactly one Stream
error is emitted, the updater fields are untouched and no request is
issued in that step (so no automatic retry); the instance, however, is
not terminal: a subsequent invocation of the pull entry point issues a
new stream request with the unchanged cursor. -/
theorem stream_error_emits_once_without_auto_retry
    (translate : RawState → Option Content) (s : UpdaterSys) (e : String)
    (hp : s.pending = Pending.stream)
    (hf : s.updater.finishedInitFromBootstrap = true) :
    s.streamResponseStep translate (StreamResponse.fail e) =
      ({ s with pending := Pending.idle }, [Output.errorEmitted e]) ∧
    UpdaterSys.readStep { s with pending := Pending.idle } =
      ({ s with pending := Pending.stream },
       [Output.streamRequest s.updater.streamRequestOpts]) := by
  constructor
  · simp [UpdaterSys.streamResponseStep, hp]
  · simp [UpdaterSys.readStep, hf]

/-- Witness for the amended C6 at the concrete streaming fixture. -/
theorem stream_error_emits_once_without_auto_retry_witness :
    sysStreaming.pending = Pending.stream ∧
    sysStreaming.streamResponseStep translateNone
        (StreamResponse.fail "boom") =
      ({ sysStreaming with pending := Pending.idle },
       [Output.errorEmitted "boom"]) := by
  refine ⟨rfl, ?_⟩
  exact (stream_error_emits_once_without_auto_retry translateNone
    sysStreaming "boom" rfl rfl).1

/-- C7: after a successful non-timeout stream response the cursor is
assigned the reported maximum event id, and then either the entire
batch of translated entities enters the buffer through one single push
call (nonempty batch, and the step ends there awaiting the next
`read`), or — for an empty batch — the very same step already issues
the next stream request, keeping the poll loop self-sustaining. -/
theorem stream_data_pushes_batch_or_streams_again
    (translate : RawState → Option Content) (s : UpdaterSys)
    (states : List (String × RawState)) (m : String)
    (hp : s.pending = Pending.stream) :
    (CollectionUpdater.contentsFromStreamData translate states ≠ [] →
      s.streamResponseStep translate (StreamResponse.data states m) =
        ({ updater := { s.updater with latestEvent := some m },
           pending := Pending.idle },
         [Output.push (CollectionUpdater.contentsFromStreamData
            translate states)])) ∧
    (CollectionUpdater.contentsFromStreamData translate states = [] →
      s.streamResponseStep translate (StreamResponse.data states m) =
        ({ updater := { s.updater with latestEvent := some m },
           pending := Pending.stream },
         [Output.streamRequest (CollectionUpdater.streamRequestOpts
            { s.updater with latestEvent := some m })])) := by
  constructor
  · intro hne
    simp [UpdaterSys.streamResponseStep, hp, List.length_eq_zero, hne]
  · intro heq
    simp [UpdaterSys.streamResponseStep, hp, heq]

/-- Witness for C7: one record, a translator that keeps it — the whole
batch goes out in a single push. -/
theorem stream_data_pushes_batch_or_streams_again_witness :
    sysStreaming.pending = Pending.stream ∧
    CollectionUpdater.contentsFromStreamData translateAll
        [("1", { payload := "p1" })] ≠ [] ∧
    sysStreaming.streamResponseStep translateAll
        (StreamResponse.data [("1", { payload := "p1" })] "E1") =
      ({ updater := { sysStreaming.updater with latestEvent := some "E1" },
         pending := Pending.idle },
       [Output.push [{ id := "p1", body := "p1" }]]) := by
  refine ⟨rfl, by decide, ?_⟩
  exact (stream_data_pushes_batch_or_streams_again translateAll
    sysStreaming [("1", { payload := "p1" })] "E1" rfl).1 (by decide)

/-- Unfolding one successful response in `drivePoll`: whatever the
batch, the response's reported maximum event id is assigned to the
cursor and the next stream request carries it. -/
theorem drivePoll_cons (translate : RawState → Option Content)
    (s : UpdaterSys) (states : List (String × RawState)) (m : String)
    (rest : List (List (String × RawState) × String))
    (hp : s.pending = Pending.stream)
    (hf : s.updater.finishedInitFromBootstrap = true) :
    UpdaterSys.drivePoll translate s ((states, m) :: rest) =
      ((UpdaterSys.drivePoll translate
          { updater := { s.updater with latestEvent := some m },
            pending := Pending.stream } rest).1,
       CollectionUpdater.streamRequestOpts
           { s.updater with latestEvent := some m } ::
         (UpdaterSys.drivePoll translate
            { updater := { s.updater with latestEvent := some m },
              pending := Pending.stream } rest).2) := by
  by_cases hc : CollectionUpdater.contentsFromStreamData translate states = []
  · simp [UpdaterSys.drivePoll, UpdaterSys.streamResponseStep, hp, hc,
          streamRequestsIn]
  · simp [UpdaterSys.drivePoll, UpdaterSys.streamResponseStep, hp,
          List.length_eq_zero, hc, UpdaterSys.readStep, hf, streamRequestsIn]

/-- The requests issued by the poll loop over successful responses:
one per response, each from the cursor that response reported. -/
theorem drivePoll_requests (translate : RawState → Option Content)
    (rs : List (List (String × RawState) × String)) :
    ∀ (s : UpdaterSys), s.pending = Pending.stream →
    s.updater.finishedInitFromBootstrap = true →
    (UpdaterSys.drivePoll translate s rs).2 =
      rs.map (fun p => CollectionUpdater.streamRequestOpts
        { s.updater with latestEvent := some p.2 }) := by
  induction rs with
  | nil => intro s hp hf; simp [UpdaterSys.drivePoll]
  | cons p rest ih =>
      intro s hp hf
      obtain ⟨states, m⟩ := p
      rw [drivePoll_cons translate s states m rest hp hf]
      simp only [List.map_cons]
      congr 1
      exact ih { updater := { s.updater with latestEvent := some m },
                 pending := Pending.stream } rfl hf

/-- C1: for every sequence of successful (non-timeout) stream
responses with reported maximum event ids `E1, E2, …`, the cursor
(`commentId`) used in stream request `k+1` equals the `maxEventId`
`Ek` of response `k`. `drivePoll` starts with request 1 outstanding
and collects the request issued after each response, so its entry at
0-based index `j` is overall request `j+2`, following response `j+1`:
its `commentId` is exactly that response's reported id. No ordering
hypothesis relates the ids — the assignment is the single
unconditional one of the source, so an id numerically "behind" a
prior cursor is adopted all the same. -/
theorem cursor_used_next_equals_reported_max
    (translate : RawState → Option Content) (s : UpdaterSys)
    (rs : List (List (String × RawState) × String))
    (hp : s.pending = Pending.stream)
    (hf : s.updater.finishedInitFromBootstrap = true) :
    (UpdaterSys.drivePoll translate s rs).2.length = rs.length ∧
    ∀ k, k < rs.length →
      ∃ req p,
        (UpdaterSys.drivePoll translate s rs).2.get? k = some req ∧
        rs.get? k = some p ∧
        req.commentId = some p.2 := by
  have h := drivePoll_requests translate rs s hp hf
  constructor
  · rw [h]; exact List.length_map _ _
  · intro k hk
    obtain ⟨p, hpk⟩ : ∃ p, rs.get? k = some p := by
      rw [List.get?_eq_get hk]; exact ⟨_, rfl⟩
    refine ⟨CollectionUpdater.streamRequestOpts
      { s.updater with latestEvent := some p.2 }, p, ?_, hpk, rfl⟩
    rw [h, List.get?_map, hpk]
    rfl

/-- Concrete two-response schedule for the C1 witness: empty batches
with reported maximum event ids `E1` then `E2`. -/
def rsTwo : List (List (String × RawState) × String) :=
  [([], "E1"), ([], "E2")]

/-- Witness for C1: with responses reporting `E1` then `E2`, the
request following the second response carries cursor `E2`. -/
theorem cursor_used_next_equals_reported_max_witness :
    sysStreaming.pending = Pending.stream ∧
    ∃ req p,
      (UpdaterSys.drivePoll translateNone sysStreaming rsTwo).2.get? 1 =
        some req ∧
      rsTwo.get? 1 = some p ∧
      req.commentId = some p.2 := by
  refine ⟨rfl, ?_⟩
  exact (cursor_used_next_equals_reported_max translateNone sysStreaming
    rsTwo rfl rfl).2 1 (by decide)

/-! Section: Structural lemmas about the list view -/

/-- The cadence block only touches the feature stream. -/
theorem bumpCadence_views (v : ContentListView) :
    (v.bumpCadence).views = v.views := by
  unfold ContentListView.bumpCadence; split <;> rfl

/-- The cadence block leaves the stash untouched. -/
theorem bumpCadence_more (v : ContentListView) :
    (v.bumpCadence).more = v.more := by
  unfold ContentListView.bumpCadence; split <;> rfl

/-- The cadence block leaves the bound flag untouched. -/
theorem bumpCadence_bound (v : ContentListView) :
    (v.bumpCadence).bound = v.bound := by
  unfold ContentListView.bumpCadence; split <;> rfl

/-- The cadence block leaves the capacity untouched. -/
theorem bumpCadence_maxVisibleItems (v : ContentListView) :
    (v.bumpCadence).maxVisibleItems = v.maxVisibleItems := by
  unfold ContentListView.bumpCadence; split <;> rfl

/-- Inserting a view leaves every field but `views` untouched. -/
theorem insertView_fields (v : ContentListView) (cv : ContentView)
    (i : Option Nat) :
    (v.insertView cv i).more = v.more ∧
    (v.insertView cv i).feature = v.feature ∧
    (v.insertView cv i).bound = v.bound ∧
    (v.insertView cv i).maxVisibleItems = v.maxVisibleItems :=
  ⟨rfl, rfl, rfl, rfl⟩

/-- Inserting a view adds exactly one element to the visible list. -/
theorem insertView_length (v : ContentListView) (cv : ContentView)
    (i : Option Nat) :
    (v.insertView cv i).views.length = v.views.length + 1 :=
  List.length_insertIdx _ _ (min_le_right _ _)

/-- The displacement guard of `add` fires exactly when the view is
bounded and the visible count strictly exceeds the capacity. -/
theorem displace_cond (v : ContentListView) :
    (v.bound && ! v.hasVisibleVacancy) = true ↔
      (v.bound = true ∧ v.views.length > v.maxVisibleItems) := by
  unfold ContentListView.hasVisibleVacancy
  by_cases h : v.views.length > v.maxVisibleItems <;> simp [h]

/-- Without overflow (or unbounded), the displacement block is a
no-op. -/
theorem displaceIfFull_of_not_full (v : ContentListView)
    (h : ¬ (v.bound = true ∧ v.views.length > v.maxVisibleItems)) :
    v.displaceIfFull = v := by
  unfold ContentListView.displaceIfFull
  rw [if_neg]
  intro hc
  exact h ((displace_cond v).1 hc)

/-- On overflow, the displacement block zeroes the stash goal, stacks
the last view's content, and drops that view. -/
theorem displaceIfFull_of_full (v : ContentListView) (w : ContentView)
    (hb : v.bound = true) (hlen : v.views.length > v.maxVisibleItems)
    (hw : v.views.getLast? = some w) :
    v.displaceIfFull =
      { v with
          more := { items := w.content :: v.more.items, goal := 0 }
          views := v.views.dropLast } := by
  unfold ContentListView.displaceIfFull
  rw [if_pos ((displace_cond v).2 ⟨hb, hlen⟩), hw]
  rfl

/-- The displacement block never touches bound, capacity or the
feature stream. -/
theorem displaceIfFull_fields (v : ContentListView) :
    (v.displaceIfFull).bound = v.bound ∧
    (v.displaceIfFull).maxVisibleItems = v.maxVisibleItems ∧
    (v.displaceIfFull).feature = v.feature := by
  unfold ContentListView.displaceIfFull
  split
  · split <;> exact ⟨rfl, rfl, rfl⟩
  · exact ⟨rfl, rfl, rfl⟩

/-- The displacement block never raises the stash goal. -/
theorem displaceIfFull_more_goal_le (v : ContentListView) :
    (v.displaceIfFull).more.goal ≤ v.more.goal := by
  unfold ContentListView.displaceIfFull
  split
  · split
    · exact Nat.zero_le _
    · exact le_refl _
  · exact le_refl _

/-- The displacement block never pops the stash. -/
theorem displaceIfFull_more_items_le (v : ContentListView) :
    v.more.items.length ≤ (v.displaceIfFull).more.items.length := by
  unfold ContentListView.displaceIfFull
  split
  · split
    · exact Nat.le_succ _
    · exact le_refl _
  · exact le_refl _

/-- The `add` with content already represented by a view is a no-op on the
modelled state. -/
theorem add_of_existing (v : ContentListView) (c : Content)
    (i : Option Nat) (w : ContentView)
    (h : v.getContentView c = some w) : v.add c i = v := by
  unfold ContentListView.add; rw [h]

/-- The `add` with new content: displacement, insertion, cadence. -/
theorem add_of_new (v : ContentListView) (c : Content) (i : Option Nat)
    (h : v.getContentView c = none) :
    v.add c i =
      ((v.displaceIfFull).insertView { content := c } i).bumpCadence := by
  unfold ContentListView.add; rw [h]

/-- The `add` preserves the bound flag. -/
theorem add_bound (v : ContentListView) (c : Content) (i : Option Nat) :
    (v.add c i).bound = v.bound := by
  cases hx : v.getContentView c with
  | some w => rw [add_of_existing v c i w hx]
  | none =>
      rw [add_of_new v c i hx, bumpCadence_bound,
          (insertView_fields _ _ _).2.2.1, (displaceIfFull_fields _).1]

/-- The `add` preserves the capacity. -/
theorem add_maxVisibleItems (v : ContentListView) (c : Content)
    (i : Option Nat) :
    (v.add c i).maxVisibleItems = v.maxVisibleItems := by
  cases hx : v.getContentView c with
  | some w => rw [add_of_existing v c i w hx]
  | none =>
      rw [add_of_new v c i hx, bumpCadence_maxVisibleItems,
          (insertView_fields _ _ _).2.2.2, (displaceIfFull_fields _).2.1]

/-- The `add` keeps the visible list below capacity plus one. -/
theorem add_views_le (v : ContentListView) (c : Content) (i : Option Nat)
    (hb : v.bound = true)
    (h : v.views.length ≤ v.maxVisibleItems + 1) :
    (v.add c i).views.length ≤ v.maxVisibleItems + 1 := by
  cases hx : v.getContentView c with
  | some w => rw [add_of_existing v c i w hx]; exact h
  | none =>
      rw [add_of_new v c i hx, bumpCadence_views, insertView_length]
      by_cases hfull : v.views.length > v.maxVisibleItems
      · have hne : v.views ≠ [] := by
          intro h0
          rw [h0] at hfull
          exact Nat.not_lt_zero _ (Nat.lt_of_le_of_lt (Nat.zero_le _) hfull)
        obtain ⟨w, hw⟩ := Option.isSome_iff_exists.1
          (List.getLast?_isSome.2 hne)
        rw [displaceIfFull_of_full v w hb hfull hw]
        have hlen : 0 < v.views.length := List.length_pos.2 hne
        simp only [List.length_dropLast]
        omega
      · rw [displaceIfFull_of_not_full v (fun hc => hfull hc.2)]
        omega

/-- Folding `add` over any batch of contents keeps the visible list
below capacity plus one. -/
theorem foldl_add_cap (i : Option Nat) (cs : List Content) :
    ∀ (v : ContentListView) (M : Nat), v.bound = true →
    v.maxVisibleItems = M → v.views.length ≤ M + 1 →
    (cs.foldl (fun w x => w.add x i) v).views.length ≤ M + 1 := by
  induction cs with
  | nil => intro v M hb hM h; simpa using h
  | cons c rest ih =>
      intro v M hb hM h
      simp only [List.foldl_cons]
      refine ih (v.add c i) M ?_ ?_ ?_
      · rw [add_bound]; exact hb
      · rw [add_maxVisibleItems]; exact hM
      · have := add_views_le v c i hb (by rw [hM]; exact h)
        rwa [hM] at this

/-- The `add` never raises the stash goal: the cadence trigger sets a goal
on the feature stream, not the stash, and displacement zeroes the
stash goal. -/
theorem add_more_goal_le (v : ContentListView) (c : Content)
    (i : Option Nat) : (v.add c i).more.goal ≤ v.more.goal := by
  cases hx : v.getContentView c with
  | some w => rw [add_of_existing v c i w hx]
  | none =>
      rw [add_of_new v c i hx, bumpCadence_more,
          (insertView_fields _ _ _).1]
      exact displaceIfFull_more_goal_le v

/-! Section: Claims about the Overflow Stash and the list view -/

/-- With the goal at zero, any number of release events releases
nothing and changes nothing. -/
theorem releaseN_goal_zero (st : Stash) (h : st.goal = 0) :
    ∀ k, Stash.releaseN st k = (st, []) := by
  intro k
  induction k with
  | zero => rfl
  | succ n ih =>
      unfold Stash.releaseN
      rw [show st.release = (st, none) by unfold Stash.release; rw [if_pos h]]
      simp [ih]

/-- The `bumpCadence` and the counter: increment, or reset on hitting the
interval. -/
theorem bumpCadence_count (v : ContentListView) :
    (v.bumpCadence).feature.count =
      if v.feature.count + 1 = v.feature.interval then -1
      else v.feature.count + 1 := by
  unfold ContentListView.bumpCadence
  split <;> simp_all

/-- The `bumpCadence` and the feature goal: set to one on hitting the
interval, untouched otherwise. -/
theorem bumpCadence_goal (v : ContentListView) :
    (v.bumpCadence).feature.goal =
      if v.feature.count + 1 = v.feature.interval then 1
      else v.feature.goal := by
  unfold ContentListView.bumpCadence
  split <;> simp_all

/-- C8: the stash is last-in-first-out — after `stack(a)` then
`stack(b)` the next release (goal permitting) yields `b`; `setGoal(0)`
blocks every release, however many release events occur, until a later
`setGoal(n)` with `n > 0` lets the top through again; and the visible
list's `add` — the operation driving the cadence counter — never
raises the stash goal, so the block cannot be lifted by cadence
activity. -/
theorem stash_lifo_and_goal_gate (st : Stash) (a b : Content) (n k : Nat)
    (hg : st.goal ≠ 0) :
    ((st.stack a).stack b).release.2 = some b ∧
    Stash.releaseN (st.setGoal 0) k = (st.setGoal 0, []) ∧
    ((((st.stack a).stack b).setGoal 0).setGoal (n + 1)).release.2 =
      some b ∧
    (∀ (v : ContentListView) (c : Content) (i : Option Nat),
      (v.add c i).more.goal ≤ v.more.goal) := by
  refine ⟨?_, ?_, ?_, ?_⟩
  · simp [Stash.release, Stash.stack, hg]
  · exact releaseN_goal_zero _ rfl k
  · simp [Stash.release, Stash.stack, Stash.setGoal]
  · intro v c i
    exact add_more_goal_le v c i

/-- Witness for C8: stacking `a` then `b` on a permissive stash and
releasing yields `b`. -/
theorem stash_lifo_and_goal_gate_witness :
    ({ items := [], goal := 1 } : Stash).goal ≠ 0 ∧
    ((({ items := [], goal := 1 } : Stash).stack
        { id := "a", body := "" }).stack
        { id := "b", body := "" }).release.2 =
      some { id := "b", body := "" } := by
  refine ⟨by decide, ?_⟩
  exact (stash_lifo_and_goal_gate { items := [], goal := 1 }
    { id := "a", body := "" } { id := "b", body := "" } 0 2 (by decide)).1

/-- A view one insertion before the cadence trigger, with an entity
sitting in the overflow stash. -/
def viewAtTrigger : ContentListView :=
  { views := []
    bound := true
    maxVisibleItems := 50
    more := { items := [{ id := "a", body := "" }], goal := 3 }
    feature := { count := 0, interval := 1, goal := 0 } }

/-- C9 counterexample: at the cadence trigger the view resets the
counter to `-1` and sets a release goal of one on the featured-content
stream, while the overflow stash — stack and goal alike — is exactly
as before: no stashed entity is released, contradicting the claim that
reaching the interval releases one stashed entity. -/
theorem cadence_trigger_leaves_stash_cex :
    (viewAtTrigger.add { id := "x", body := "" } (some 0)).feature.goal
        = 1 ∧
    (viewAtTrigger.add { id := "x", body := "" } (some 0)).feature.count
        = -1 ∧
    (viewAtTrigger.add { id := "x", body := "" } (some 0)).more =
      viewAtTrigger.more := by decide

/-- C9 as amended: the cadence counter increments exactly once per
newly inserted item (an add matching an existing view is a no-op on
the state); on reaching the configured interval the counter is reset
to `-1` — so each subsequent interval spans interval+1 insertions —
and a release goal of one is set on the featured-content stream, not
the overflow stash; the stash never shrinks during an add, so the
trigger releases no stashed entity. -/
theorem cadence_counts_inserts_and_gates_feature (v : ContentListView)
    (c : Content) (i : Option Nat)
    (hnew : v.getContentView c = none) :
    ((v.add c i).feature.count =
       if v.feature.count + 1 = v.feature.interval then -1
       else v.feature.count + 1) ∧
    ((v.add c i).feature.goal =
       if v.feature.count + 1 = v.feature.interval then 1
       else v.feature.goal) ∧
    v.more.items.length ≤ (v.add c i).more.items.length ∧
    (∀ (c2 : Content) (w : ContentView),
      v.getContentView c2 = some w → v.add c2 i = v) := by
  have hf : ((v.displaceIfFull).insertView { content := c } i).feature =
      v.feature := by
    rw [(insertView_fields _ _ _).2.1, (displaceIfFull_fields _).2.2]
  refine ⟨?_, ?_, ?_, ?_⟩
  · rw [add_of_new v c i hnew, bumpCadence_count, hf]
  · rw [add_of_new v c i hnew, bumpCadence_goal, hf]
  · rw [add_of_new v c i hnew, bumpCadence_more,
        (insertView_fields _ _ _).1]
    exact displaceIfFull_more_items_le v
  · intro c2 w h
    exact add_of_existing v c2 i w h

/-- Witness for the amended C9 at the trigger fixture: the feature
goal becomes one. -/
theorem cadence_counts_inserts_and_gates_feature_witness :
    viewAtTrigger.getContentView { id := "x", body := "" } = none ∧
    (viewAtTrigger.add { id := "x", body := "" } (some 0)).feature.goal =
      (if viewAtTrigger.feature.count + 1 = viewAtTrigger.feature.interval
       then 1 else viewAtTrigger.feature.goal) := by
  refine ⟨by decide, ?_⟩
  exact (cadence_counts_inserts_and_gates_feature viewAtTrigger
    { id := "x", body := "" } (some 0) (by decide)).2.1

/-- C10: with `_bound` set, `add` displaces into the stash only when
the visible count strictly exceeds `_maxVisibleItems` — an
overflowing add displaces exactly one view, the last in order, whose
content tops the stash while the visible count stays constant; a
non-overflowing add leaves the stash untouched; and the visible list
never exceeds `_maxVisibleItems + 1` views, neither across one add nor
along any batch of adds from an empty list. -/
theorem bounded_add_displacement_invariant (v : ContentListView)
    (c : Content) (i : Option Nat) (hb : v.bound = true) :
    (v.getContentView c = none → v.views.length > v.maxVisibleItems →
      ∃ w, v.views.getLast? = some w ∧
        (v.add c i).more.items = w.content :: v.more.items ∧
        (v.add c i).views.length = v.views.length) ∧
    (v.views.length ≤ v.maxVisibleItems → (v.add c i).more = v.more) ∧
    (v.views.length ≤ v.maxVisibleItems + 1 →
      (v.add c i).views.length ≤ v.maxVisibleItems + 1) ∧
    (v.views = [] →
      ∀ (cs : List Content),
        (cs.foldl (fun w x => w.add x i) v).views.length ≤
          v.maxVisibleItems + 1) := by
  refine ⟨?_, ?_, ?_, ?_⟩
  · intro hnew hfull
    have hne : v.views ≠ [] := by
      intro h0
      rw [h0] at hfull
      exact Nat.not_lt_zero _ hfull
    obtain ⟨w, hw⟩ := Option.isSome_iff_exists.1
      (List.getLast?_isSome.2 hne)
    refine ⟨w, hw, ?_, ?_⟩
    · rw [add_of_new v c i hnew, bumpCadence_more,
          (insertView_fields _ _ _).1,
          displaceIfFull_of_full v w hb hfull hw]
    · rw [add_of_new v c i hnew, bumpCadence_views, insertView_length,
          displaceIfFull_of_full v w hb hfull hw]
      simp only [List.length_dropLast]
      have := List.length_pos.2 hne
      omega
  · intro hle
    cases hx : v.getContentView c with
    | some w => rw [add_of_existing v c i w hx]
    | none =>
        rw [add_of_new v c i hx, bumpCadence_more,
            (insertView_fields _ _ _).1,
            displaceIfFull_of_not_full v (fun hc => Nat.not_lt.2 hle hc.2)]
  · intro h
    exact add_views_le v c i hb h
  · intro h0 cs
    refine foldl_add_cap i cs v v.maxVisibleItems hb rfl ?_
    rw [h0]
    exact Nat.le_add_left _ _

/-- A bounded view already one over capacity. -/
def viewFull : ContentListView :=
  { views := [{ content := { id := "v1", body := "" } },
              { content := { id := "v2", body := "" } }]
    bound := true
    maxVisibleItems := 1
    more := { items := [], goal := 0 }
    feature := { count := 0, interval := 10, goal := 0 } }

/-- Witness for C10: adding to a bounded view that is one over
capacity displaces exactly the last view into the stash and keeps the
count constant. -/
theorem bounded_add_displacement_invariant_witness :
    viewFull.bound = true ∧
    viewFull.getContentView { id := "x", body := "" } = none ∧
    viewFull.views.length > viewFull.maxVisibleItems ∧
    ∃ w, viewFull.views.getLast? = some w ∧
      (viewFull.add { id := "x", body := "" } none).more.items =
        w.content :: viewFull.more.items ∧
      (viewFull.add { id := "x", body := "" } none).views.length =
        viewFull.views.length := by
  refine ⟨rfl, by decide, by decide, ?_⟩
  exact (bounded_add_displacement_invariant viewFull
    { id := "x", body := "" } none rfl).1 (by decide) (by decide)
